import Mathlib

/-!
Verification of the FactFinit dual-source fact-verification pipeline
(`src/factChecker` module, the video-id extractors, and their data model),
as a shallow embedding in Lean 4.

Modelling conventions:
* JavaScript strings are modelled by `String`; `slice(0, 5000)` is modelled at
  codepoint granularity (`List.take 5000` over the characters), `trim` uses
  `Char.isWhitespace` (space, tab, CR, LF), and `join(' ')` / `includes` /
  `startsWith` are re-implemented character by character below.
* The TypeScript interface marks `factCheck.sources` optional, but every result
  the pipeline constructs supplies it, and JavaScript `x || []` is the identity
  on every array value (arrays, even empty ones, are truthy), so `sources` is
  embedded as a plain list and `|| []` as the identity.
* The two network calls are oracles: a `GeminiOutcome` is either a parse failure
  (any throw inside `runGeminiFactCheck`'s try block: exhausted retries or a
  JSON-parse error) or a parsed `FactCheckResult`; a `RagOutcome` is either a
  failure (exhausted retries or a malformed response body, all of which land in
  the catch branch of `runRAGFactCheck`) or a well-formed
  `{ answer, passages }` response.
* `new URL(...)` (WHATWG URL parsing) is external; whether it throws is an
  oracle boolean `parseOk` passed to the extractors.
-/

set_option maxRecDepth 100000

set_option maxHeartbeats 1000000

namespace FactFinit

/-- Character-level model of JavaScript `Array.prototype.join(' ')`. -/
def jsJoinSpace : List String → String
  | [] => ""
  | [s] => s
  | s :: s2 :: rest => s ++ " " ++ jsJoinSpace (s2 :: rest)

/-- Model of `String.prototype.slice(0, 5000)` at codepoint granularity. -/
def jsSlice5000 (s : String) : String :=
  String.mk (s.data.take 5000)

/-- Model of `String.prototype.trim()` (whitespace = space, tab, CR, LF). -/
def jsTrim (s : String) : String :=
  String.mk (((s.data.dropWhile Char.isWhitespace).reverse.dropWhile Char.isWhitespace).reverse)

/-- Boolean list-prefix test (used to model `String.prototype.startsWith`). -/
def isPrefixL : List Char → List Char → Bool
  | [], _ => true
  | _ :: _, [] => false
  | p :: ps, c :: cs => p == c && isPrefixL ps cs

/-- Boolean contiguous-substring test over character lists. -/
def hasInfixL (pat : List Char) : List Char → Bool
  | [] => isPrefixL pat []
  | c :: cs => isPrefixL pat (c :: cs) || hasInfixL pat cs

/-- Model of JavaScript `s.includes(pat)`. -/
def jsIncludes (s pat : String) : Bool :=
  hasInfixL pat.data s.data

/-- Model of `combinedText.replace(/"/g, '\\"')` (escape every double quote). -/
def escapeQuotes (s : String) : String :=
  String.mk (s.data.foldr (fun c acc => if c = '"' then '\\' :: '"' :: acc else c :: acc) [])

/-- Source `interfaces/transcript.ts`: one timestamped transcript segment. -/
structure TranscriptSegment where
  text : String
  start : Float
  duration : Option Float
  lang : String

/-- A value of the transcript map: either an ordered array of segments or a
plain string placeholder (`TranscriptSegment[] | string`). -/
inductive TranscriptValue where
  | segs : List TranscriptSegment → TranscriptValue
  | str : String → TranscriptValue

/-- The transcript map `Record<string, TranscriptSegment[] | string>`
(an absent key is `none`). -/
def Transcript : Type := String → Option TranscriptValue

/-- Source `interfaces/factCheckResult.ts`: one extracted claim. -/
structure Claim where
  claim : String
  isAccurate : Bool
  explanation : String
  deriving DecidableEq

/-- Source `interfaces/factCheckResult.ts`: one cited source. -/
structure Source where
  title : String
  url : String
  snippet : String
  deriving DecidableEq

/-- The `factCheck` component of a verdict (see the module comment for why
`sources` is a plain list). -/
structure FactCheck where
  claims : List Claim
  sources : List Source
  deriving DecidableEq

/-- Source `interfaces/factCheckResult.ts`: the verdict shape returned by every
pipeline component. -/
structure FactCheckResult where
  normalizedTranscript : String
  isFinancial : Bool
  isMisleading : Bool
  factCheck : FactCheck
  deriving DecidableEq

/-- One passage of the retrieval service's response body. -/
structure Passage where
  title : String
  url : String
  snippet : String
  deriving DecidableEq

/-- Oracle for one full retrieval interaction: `fail` covers timeout/retry
exhaustion and every malformed response body (all of which throw inside the
try block of `runRAGFactCheck` and land in its catch); `ok` is a well-formed
`{ answer, passages }` response. -/
inductive RagOutcome where
  | fail : RagOutcome
  | ok : String → List Passage → RagOutcome

/-- Oracle for one full generative-model interaction: `fail` covers retry
exhaustion and unparsable output (the component then throws), `ok` carries the
JSON-parsed result (before the component recomputes `isMisleading`). -/
inductive GeminiOutcome where
  | fail : GeminiOutcome
  | ok : FactCheckResult → GeminiOutcome

/-- Source `factChecker.ts`, `runRAGFactCheck`: derive a verdict from one
retrieval interaction. Mirrors the source line by line; note that
`factCheck.sources` is `passages.map(...)` unconditionally, with no
`OUT OF CONTEXT` guard. -/
def runRAGFactCheck (combinedText : String) (outcome : RagOutcome) : FactCheckResult :=
  match outcome with
  | .fail =>
    { normalizedTranscript := combinedText
      isFinancial := false
      isMisleading := false
      factCheck := { claims := [], sources := [] } }
  | .ok answer passages =>
    let normalizedTranscript :=
      if answer = "OUT OF CONTEXT" then combinedText
      else if passages.length > 0 then jsJoinSpace (passages.map (fun p => p.snippet))
      else combinedText
    let claims : List Claim :=
      if answer = "OUT OF CONTEXT" then []
      else passages.map (fun p =>
        { claim := p.title
          isAccurate := true
          explanation := "Based on recent financial news: " ++ p.snippet ++ " (Source: " ++ p.url ++ ")" })
    { normalizedTranscript := normalizedTranscript
      isFinancial := decide (¬ answer = "OUT OF CONTEXT" ∧ 0 < passages.length)
      isMisleading := claims.any (fun c => !c.isAccurate)
      factCheck :=
        { claims := claims
          sources := passages.map (fun p => { title := p.title, url := p.url, snippet := p.snippet }) } }

/-- Source `factChecker.ts`: the fixed static fact table entry `gold_2015`. -/
def staticFactGold2015 : String :=
  "Average gold price in 2015 was Rs 26,400 per 10g (Rs 2,640/g). Source: https://www.bankbazaar.com/gold-rate/gold-rate-trend-in-india.html"

/-- Source `factChecker.ts`, `normalizeTranscript`: the context hint chosen for
the Claim Extractor (`combinedText.includes('gold') && combinedText.includes('2015')`). -/
def contextFor (combinedText additionalContext : String) : String :=
  if jsIncludes combinedText "gold" && jsIncludes combinedText "2015" then staticFactGold2015
  else additionalContext

/-- The fixed prompt template of `runGeminiFactCheck` up to the interpolated
input text (transcribed verbatim from the source template literal). -/
def promptPrefix : String :=
  "\nYou are a professional transcript normalizer and fact-checker. Your task is to process the provided transcript and return a structured JSON response with the following:\n\n1. **Normalized Transcript**: Convert the transcript into a single, cohesive English paragraph. Follow these steps:\n   - Translate non-English text to English, preserving meaning.\n   - Fix grammatical errors and improve sentence structure.\n   - Remove filler words (e.g., \"uh\", \"um\") and repetitive phrases unless they add meaning.\n   - For songs or repetitive content, include all unique content in a natural paragraph.\n   - If the input is empty, return a brief message indicating the issue.\n\n2. **Financial Detection**: Analyze the transcript for financial content (e.g., stocks, investments, prices). Return a boolean for \"isFinancial\".\n\n3. **Fact-Checking**:\n   - If isFinancial is false, return factCheck as \x7b claims: [], sources: [] \x7d.\n   - If isFinancial is true:\n     - Identify up to 3 major claims.\n     - For each claim, provide:\n       - claim: Verbatim claim (e.g., \"10gm gold was 3000 Rs in 2015\").\n       - isAccurate: Boolean indicating if the claim is correct.\n       - explanation: A 100-200 word explanation of accuracy, including evidence, context, and caveats.\n     - Provide up to 5 credible sources at the factCheck level with title, URL, and snippet.\n\nReturn only the JSON object.\n\nInput: \""

/-- The rest of the fixed prompt template, after the interpolated input text. -/
def promptSuffix : String :=
  "\"\nOutput format: \x7b\n  \"normalizedTranscript\": \"string\",\n  \"isFinancial\": boolean,\n  \"isMisleading\": boolean,\n  \"factCheck\": \x7b\n    \"claims\": Array<\x7b \"claim\": string, \"isAccurate\": boolean, \"explanation\": string \x7d>,\n    \"sources\": Array<\x7b \"title\": string, \"url\": string, \"snippet\": string \x7d>\n  \x7d\n\x7d\n"

/-- Source `factChecker.ts`, `runGeminiFactCheck`: the prompt sent to the
generative model. The `context` parameter is accepted by the source function
(with default `''`) but never interpolated into the template: the only variable
part is the quote-escaped combined text. -/
def geminiPrompt (combinedText context : String) : String :=
  promptPrefix ++ escapeQuotes combinedText ++ promptSuffix

/-- Source `factChecker.ts`, `runGeminiFactCheck`: post-processing of one
generative-model interaction. On success the parsed result is returned with
`claims` rebuilt field by field (an identity), `isMisleading` recomputed from
the claims, and `sources` defaulted (identity here, see module comment); on any
failure the source throws, modelled as `none`. -/
def runGeminiFactCheck (combinedText context : String) (outcome : GeminiOutcome) :
    Option FactCheckResult :=
  match outcome with
  | .fail => none
  | .ok parsed => some
      { normalizedTranscript := parsed.normalizedTranscript
        isFinancial := parsed.isFinancial
        isMisleading := parsed.factCheck.claims.any (fun c => !c.isAccurate)
        factCheck := { claims := parsed.factCheck.claims, sources := parsed.factCheck.sources } }

/-- Source `factChecker.ts`, `mergeResults`: reconcile the two verdicts under
the Fact Source precedence rule. -/
def mergeResults (geminiResult ragResult : FactCheckResult) (combinedText : String) :
    FactCheckResult :=
  if ragResult.isFinancial = true ∧ 0 < ragResult.factCheck.claims.length then
    { normalizedTranscript := geminiResult.normalizedTranscript
      isFinancial := true
      isMisleading := ragResult.factCheck.claims.any (fun c => !c.isAccurate)
      factCheck :=
        { claims := ragResult.factCheck.claims
          sources := ragResult.factCheck.sources } }
  else
    { normalizedTranscript := geminiResult.normalizedTranscript
      isFinancial := geminiResult.isFinancial
      isMisleading := geminiResult.factCheck.claims.any (fun c => !c.isAccurate)
      factCheck :=
        { claims := geminiResult.factCheck.claims
          sources := geminiResult.factCheck.sources } }

/-- The fixed language preference order of `normalizeTranscript`. -/
def languages : List String := ["en", "hi", "ta", "bn", "mr"]

/-- JavaScript truthiness of `transcript[k] && Array.isArray(transcript[k])`:
true exactly when the key holds an array value (arrays, even empty, are
truthy; strings and absent keys never pass `Array.isArray`). -/
def isSegArray : Option TranscriptValue → Bool
  | some (.segs _) => true
  | _ => false

/-- The segment list held at a key, `[]` when the key holds no array. -/
def getSegs : Option TranscriptValue → List TranscriptSegment
  | some (.segs l) => l
  | _ => []

/-- Source `factChecker.ts`, `normalizeTranscript` lines 5-16: segment
selection. The `en` branch is taken whenever `transcript['en']` is an array —
even an empty one, because empty arrays are truthy in JavaScript. -/
def selectSegments (t : Transcript) : List TranscriptSegment :=
  if isSegArray (t "en") then getSegs (t "en")
  else List.foldl (fun acc lang => if isSegArray (t lang) then acc ++ getSegs (t lang) else acc)
    [] languages

/-- Source `factChecker.ts`: `allSegments.map(t => t.text).join(' ').slice(0, 5000).trim()`. -/
def combinedTextOf (t : Transcript) : String :=
  jsTrim (jsSlice5000 (jsJoinSpace ((selectSegments t).map (fun s => s.text))))

/-- The short-circuit verdict for transcripts with no usable text. -/
def unavailableResult : FactCheckResult :=
  { normalizedTranscript := "No translatable transcript available"
    isFinancial := false
    isMisleading := false
    factCheck := { claims := [], sources := [] } }

/-- Source `factChecker.ts`, `normalizeTranscript`: the full pipeline
orchestrator, with the two network interactions supplied as oracles. A
rejected Extractor promise makes `Promise.all` reject into the catch branch;
`runRAGFactCheck` never rejects. -/
def normalizeTranscript (transcript : Transcript) (additionalContext : String)
    (gem : GeminiOutcome) (rag : RagOutcome) : FactCheckResult :=
  if (selectSegments transcript).length = 0 then unavailableResult
  else if combinedTextOf transcript = "" then unavailableResult
  else
    match runGeminiFactCheck (combinedTextOf transcript)
        (contextFor (combinedTextOf transcript) additionalContext) gem with
    | none =>
      { normalizedTranscript := combinedTextOf transcript
        isFinancial := false
        isMisleading := false
        factCheck := { claims := [], sources := [] } }
    | some geminiResult =>
      mergeResults geminiResult (runRAGFactCheck (combinedTextOf transcript) rag)
        (combinedTextOf transcript)

/-- Concrete transcript: an English sequence with one financial sentence. -/
def tEn : Transcript := fun k =>
  if k = "en" then some (.segs [{ text := "stocks will rise", start := 0.0, duration := none, lang := "en" }])
  else none

/-- Concrete transcript: an empty English array next to a populated Hindi
sequence (the JavaScript-truthiness edge case of the Aggregator). -/
def tCex5 : Transcript := fun k =>
  if k = "en" then some (.segs [])
  else if k = "hi" then some (.segs [{ text := "hello", start := 0.0, duration := none, lang := "hi" }])
  else none

/-- Concrete parsed Extractor result that reports non-financial content while
still carrying a claim (shape-conforming model output the code never filters). -/
def gemBad : GeminiOutcome :=
  .ok { normalizedTranscript := "norm"
        isFinancial := false
        isMisleading := false
        factCheck := { claims := [{ claim := "c1", isAccurate := true, explanation := "e" }], sources := [] } }

/-- Concrete parsed Extractor result obeying the prompt contract (non-financial
with empty claims and sources). -/
def gemGood : GeminiOutcome :=
  .ok { normalizedTranscript := "norm"
        isFinancial := false
        isMisleading := false
        factCheck := { claims := [], sources := [] } }

/-- Concrete financial Extractor result (for the Reconciler witnesses). -/
def gFin : FactCheckResult :=
  { normalizedTranscript := "gnorm"
    isFinancial := true
    isMisleading := false
    factCheck := { claims := [{ claim := "gc", isAccurate := true, explanation := "ge" }], sources := [] } }

/-- Concrete financial Fact Source result with one inaccurate claim and one
source (for the Reconciler witnesses). -/
def rFin : FactCheckResult :=
  { normalizedTranscript := "rnorm"
    isFinancial := true
    isMisleading := false
    factCheck :=
      { claims := [{ claim := "rc", isAccurate := false, explanation := "re" }]
        sources := [{ title := "rt", url := "ru", snippet := "rs" }] } }

/-- Concrete non-financial Fact Source result (for the Reconciler witnesses). -/
def rNon : FactCheckResult :=
  { normalizedTranscript := "rnorm2"
    isFinancial := false
    isMisleading := false
    factCheck := { claims := [], sources := [] } }

/-- Concrete retrieval passage. -/
def ragPassage : Passage :=
  { title := "RBI rate decision", url := "https://example.com/rbi", snippet := "The RBI held rates" }

/-- Concatenation of a list of lists (spec-side helper for the Aggregator). -/
def concatAll : List (List α) → List α
  | [] => []
  | l :: ls => l ++ concatAll ls

/-- Spec-side Aggregator selection following the amended wording: English
segments whenever `en` holds an array (even an empty one), otherwise the
concatenation over the preference order of every present sequence. -/
def specSelectedSegments (t : Transcript) : List TranscriptSegment :=
  if isSegArray (t "en") then getSegs (t "en")
  else concatAll (languages.map (fun lang => getSegs (t lang)))

/-- Spec-side combined text following the amended wording of the Aggregator
contract: join the selected segments' text with single spaces, truncate to
5000 characters, trim. -/
def specCombinedText (t : Transcript) : String :=
  jsTrim (jsSlice5000 (jsJoinSpace ((specSelectedSegments t).map (fun s => s.text))))

/-- Spec-side Aggregator selection following the original claim wording:
English segments only when the `en` sequence exists AND is non-empty,
otherwise the fallback concatenation over the preference order. -/
def claimSelectedSegments (t : Transcript) : List TranscriptSegment :=
  match t "en" with
  | some (.segs (s :: rest)) => s :: rest
  | _ => concatAll (languages.map (fun lang => getSegs (t lang)))

/-- Spec-side combined text following the original claim wording. -/
def claimCombinedText (t : Transcript) : String :=
  jsTrim (jsSlice5000 (jsJoinSpace ((claimSelectedSegments t).map (fun s => s.text))))

/-- Character class `[a-zA-Z0-9_-]` of both video-id regexes
(`Char.isAlphanum` is ASCII letters and digits only). -/
def isIdChar (c : Char) : Bool :=
  c.isAlphanum || c == '_' || c == '-'

/-- Match a literal regex fragment case-insensitively (flag `i`; the patterns
are written in lowercase) and return the rest of the input. -/
def matchLit : List Char → List Char → Option (List Char)
  | [], rest => some rest
  | _ :: _, [] => none
  | p :: ps, c :: cs => if c.toLower == p then matchLit ps cs else none

/-- Greedy capture `([a-zA-Z0-9_-]+)` at the end of the Instagram pattern:
at least one class character, as many as possible. -/
def captureIdPlus (r : List Char) : Option String :=
  let id := r.takeWhile isIdChar
  if id.isEmpty then none else some (String.mk id)

/-- The Instagram pattern `instagram\.com\/(?:p|reel)\/([a-zA-Z0-9_-]+)`
attempted at one start position (alternation tries `p` then `reel`). -/
def instaMatchAt (cs : List Char) : Option String :=
  match matchLit "instagram.com/".data cs with
  | none => none
  | some rest =>
    match matchLit "p/".data rest with
    | some r => captureIdPlus r
    | none =>
      match matchLit "reel/".data rest with
      | some r => captureIdPlus r
      | none => none

/-- Exact capture `([a-zA-Z0-9_-]{11})`: exactly `n` class characters
(nothing follows the group, so no backtracking into it). -/
def takeExact : Nat → List Char → Option (List Char)
  | 0, _ => some []
  | _ + 1, [] => none
  | n + 1, c :: cs => if isIdChar c then (takeExact n cs).map (fun l => c :: l) else none

/-- The 11-character id capture of the YouTube pattern. -/
def capture11 (r : List Char) : Option String :=
  (takeExact 11 r).map String.mk

/-- The inner alternation of the YouTube pattern after a `youtube.com/` or
`m.youtube.com/` host, in source order. -/
def ytInnerAlts : List String :=
  ["watch?v=", "shorts/", "embed/", "v/", "live/", "watch/", "video/"]

/-- Try each inner alternative in order at the same position; on a literal
match the engine must still complete the 11-character capture, else it
backtracks to the next alternative. -/
def tryAltsWith (rest : List Char) : List String → Option String
  | [] => none
  | alt :: alts =>
    match matchLit alt.data rest with
    | some r =>
      match capture11 r with
      | some id => some id
      | none => tryAltsWith rest alts
    | none => tryAltsWith rest alts

/-- The YouTube pattern attempted at one start position: outer alternation
`youtube\.com\/(?:...)` then `youtu\.be\/` then `m\.youtube\.com\/(?:...)`,
each followed by the 11-character capture. -/
def ytMatchAt (cs : List Char) : Option String :=
  match (matchLit "youtube.com/".data cs).bind (fun rest => tryAltsWith rest ytInnerAlts) with
  | some id => some id
  | none =>
    match (matchLit "youtu.be/".data cs).bind capture11 with
    | some id => some id
    | none => (matchLit "m.youtube.com/".data cs).bind (fun rest => tryAltsWith rest ytInnerAlts)

/-- Unanchored regex search: try the pattern at every start position from the
left and return the first successful capture (`String.prototype.match`). -/
def scanMatch (f : List Char → Option String) : List Char → Option String
  | [] => f []
  | c :: cs =>
    match f (c :: cs) with
    | some r => some r
    | none => scanMatch f cs

/-- URL cleaning shared verbatim by both extractors: trim, then prepend
`https://` unless the string already starts with `http://` or `https://`. -/
def cleanUrl (videoURL : String) : String :=
  let t := jsTrim videoURL
  if isPrefixL "http://".data t.data || isPrefixL "https://".data t.data then t
  else "https://" ++ t

/-- Source `utils/instagramIdExtractor.ts`, `extractInstagramId`. `parseOk`
is the oracle for whether `new URL(cleanedURL)` succeeds; when it throws the
catch branch returns the empty string. -/
def extractInstagramId (parseOk : Bool) (videoURL : String) : String :=
  if parseOk then
    match scanMatch instaMatchAt (cleanUrl videoURL).data with
    | some id => id
    | none => ""
  else ""

/-- Source `utils/youtubeIdExtractor.ts` (shipped alongside the Instagram
extractor), `extractYouTubeId`, with the same `new URL` oracle. -/
def extractYouTubeId (parseOk : Bool) (videoURL : String) : String :=
  if parseOk then
    match scanMatch ytMatchAt (cleanUrl videoURL).data with
    | some id => id
    | none => ""
  else ""

/-! Helper lemmas. -/

/-- A transcript key that does not hold an array contributes no segments. -/
theorem getSegs_of_not_array (v : Option TranscriptValue) (h : ¬ isSegArray v = true) :
    getSegs v = [] := by
  cases v with
  | none => rfl
  | some tv =>
    cases tv with
    | segs l => exact absurd rfl h
    | str s => rfl

/-- The fallback fold of the Aggregator is the concatenation, in list order,
of the segments held at each key. -/
theorem foldl_select (t : Transcript) (ls : List String) :
    ∀ init : List TranscriptSegment,
      List.foldl (fun acc lang => if isSegArray (t lang) then acc ++ getSegs (t lang) else acc)
          init ls
        = init ++ concatAll (ls.map (fun lang => getSegs (t lang))) := by
  induction ls with
  | nil => intro init; simp [concatAll]
  | cons l ls ih =>
    intro init
    simp only [List.foldl, List.map, concatAll]
    by_cases h : isSegArray (t l) = true
    · rw [if_pos h, ih (init ++ getSegs (t l)), List.append_assoc]
    · rw [if_neg h, ih init, getSegs_of_not_array (t l) h]
      simp

/-- The source's segment selection equals the spec-side selection. -/
theorem selectSegments_eq_spec (t : Transcript) :
    selectSegments t = specSelectedSegments t := by
  unfold selectSegments specSelectedSegments
  by_cases h : isSegArray (t "en") = true
  · rw [if_pos h, if_pos h]
  · rw [if_neg h, if_neg h, foldl_select t languages []]
    rfl

/-- When no segments are selected, the combined text is empty. -/
theorem combined_empty_of_no_segments (t : Transcript) (h : selectSegments t = []) :
    combinedTextOf t = "" := by
  unfold combinedTextOf
  rw [h]
  rfl

/-! Claim theorems. -/

/-- C1: Reconciler precedence. If the Fact Source result is financial with at
least one claim, the merged result takes the Fact Source's claims and sources
exactly, is financial, and keeps the Extractor's normalized transcript;
otherwise the merged result takes the Extractor's classification, claims,
sources, and normalized transcript wholesale. In no case are the claim lists
mixed: the merged claims are one side's claims. -/
theorem C1_merge_precedence (g r : FactCheckResult) (ct : String) :
    (r.isFinancial = true → r.factCheck.claims ≠ [] →
      (mergeResults g r ct).factCheck.claims = r.factCheck.claims ∧
      (mergeResults g r ct).factCheck.sources = r.factCheck.sources ∧
      (mergeResults g r ct).isFinancial = true ∧
      (mergeResults g r ct).normalizedTranscript = g.normalizedTranscript) ∧
    (¬ (r.isFinancial = true ∧ r.factCheck.claims ≠ []) →
      (mergeResults g r ct).isFinancial = g.isFinancial ∧
      (mergeResults g r ct).factCheck.claims = g.factCheck.claims ∧
      (mergeResults g r ct).factCheck.sources = g.factCheck.sources ∧
      (mergeResults g r ct).normalizedTranscript = g.normalizedTranscript) ∧
    ((mergeResults g r ct).factCheck.claims = r.factCheck.claims ∨
      (mergeResults g r ct).factCheck.claims = g.factCheck.claims) := by
  by_cases h : r.isFinancial = true ∧ 0 < r.factCheck.claims.length
  · refine ⟨fun _ _ => ?_, fun hn => ?_, ?_⟩
    · unfold mergeResults
      rw [if_pos h]
      exact ⟨rfl, rfl, rfl, rfl⟩
    · exact absurd ⟨h.1, List.length_pos.mp h.2⟩ hn
    · left
      unfold mergeResults
      rw [if_pos h]
  · refine ⟨fun h1 h2 => absurd ⟨h1, List.length_pos.mpr h2⟩ h, fun _ => ?_, ?_⟩
    · unfold mergeResults
      rw [if_neg h]
      exact ⟨rfl, rfl, rfl, rfl⟩
    · right
      unfold mergeResults
      rw [if_neg h]

/-- Witness for C1 at concrete results: a financial Fact Source result with
one claim wins outright; a non-financial one defers to the Extractor. -/
theorem C1_merge_precedence_witness :
    (mergeResults gFin rFin "ct").factCheck.claims = rFin.factCheck.claims ∧
    (mergeResults gFin rFin "ct").factCheck.sources = rFin.factCheck.sources ∧
    (mergeResults gFin rFin "ct").isFinancial = true ∧
    (mergeResults gFin rNon "ct").factCheck.claims = gFin.factCheck.claims ∧
    (mergeResults gFin rNon "ct").isFinancial = gFin.isFinancial := by
  refine ⟨((C1_merge_precedence gFin rFin "ct").1 (by decide) (by decide)).1,
    ((C1_merge_precedence gFin rFin "ct").1 (by decide) (by decide)).2.1,
    ((C1_merge_precedence gFin rFin "ct").1 (by decide) (by decide)).2.2.1,
    ((C1_merge_precedence gFin rNon "ct").2.1 (by decide)).2.1,
    ((C1_merge_precedence gFin rNon "ct").2.1 (by decide)).1⟩

/-- C2: for every result of the pipeline entry point (short-circuit defaults,
failure defaults, and both Reconciler branches alike), `isMisleading` is true
iff at least one claim of `factCheck.claims` has `isAccurate = false`. -/
theorem C2_isMisleading_invariant (t : Transcript) (add : String)
    (gem : GeminiOutcome) (rag : RagOutcome) :
    (normalizeTranscript t add gem rag).isMisleading =
      (normalizeTranscript t add gem rag).factCheck.claims.any (fun c => !c.isAccurate) ∧
    ((normalizeTranscript t add gem rag).isMisleading = true ↔
      ∃ c ∈ (normalizeTranscript t add gem rag).factCheck.claims, c.isAccurate = false) := by
  have key : (normalizeTranscript t add gem rag).isMisleading =
      (normalizeTranscript t add gem rag).factCheck.claims.any (fun c => !c.isAccurate) := by
    unfold normalizeTranscript
    split
    · rfl
    · split
      · rfl
      · cases gem with
        | fail => rfl
        | ok parsed =>
          simp only [runGeminiFactCheck]
          unfold mergeResults
          split
          · rfl
          · rfl
  refine ⟨key, ?_⟩
  rw [key]
  simp [List.any_eq_true, Bool.not_eq_true']

/-- C6: whenever the combined text is empty (including transcripts with no
populated language), the pipeline returns exactly the "No translatable
transcript available" default, independently of both oracle outcomes. -/
theorem C6_empty_shortcircuit (t : Transcript) (add : String)
    (gem : GeminiOutcome) (rag : RagOutcome) (h : combinedTextOf t = "") :
    normalizeTranscript t add gem rag = unavailableResult := by
  unfold normalizeTranscript
  by_cases hl : (selectSegments t).length = 0
  · rw [if_pos hl]
  · rw [if_neg hl, if_pos h]

/-- Witness for C6: the everywhere-absent transcript map short-circuits. -/
theorem C6_empty_shortcircuit_witness :
    normalizeTranscript (fun _ => none) "" .fail (.ok "a" []) = unavailableResult :=
  C6_empty_shortcircuit (fun _ => none) "" .fail (.ok "a" []) (by decide)

/-- C7: the Fact Source never propagates a failure: every failing retrieval
interaction yields the neutral default verdict built from the original
combined text. -/
theorem C7_rag_failure_default (ct : String) :
    runRAGFactCheck ct .fail =
      { normalizedTranscript := ct
        isFinancial := false
        isMisleading := false
        factCheck := { claims := [], sources := [] } } := rfl

/-- C8: when the Extractor call fails and the transcript was non-empty, the
pipeline returns the default non-financial verdict whose transcript is the
combined text (not the sentinel message), for every Fact Source outcome. -/
theorem C8_extractor_failure_default (t : Transcript) (add : String)
    (rag : RagOutcome) (h : combinedTextOf t ≠ "") :
    normalizeTranscript t add .fail rag =
      { normalizedTranscript := combinedTextOf t
        isFinancial := false
        isMisleading := false
        factCheck := { claims := [], sources := [] } } := by
  have hl : ¬ (selectSegments t).length = 0 := fun hl =>
    h (combined_empty_of_no_segments t (List.length_eq_zero.mp hl))
  unfold normalizeTranscript
  rw [if_neg hl, if_neg h]
  rfl

/-- Witness for C8 at a concrete transcript and a failing Fact Source. -/
theorem C8_extractor_failure_default_witness :
    normalizeTranscript tEn "" .fail .fail =
      { normalizedTranscript := combinedTextOf tEn
        isFinancial := false
        isMisleading := false
        factCheck := { claims := [], sources := [] } } :=
  C8_extractor_failure_default tEn "" .fail (by decide)

/-- C3 counterexample: with a shape-conforming Extractor result that reports
`isFinancial = false` while carrying a claim, and a failing Fact Source, the
pipeline returns a non-financial verdict with a non-empty claim list. -/
theorem C3_counterexample :
    (normalizeTranscript tEn "" gemBad .fail).isFinancial = false ∧
    (normalizeTranscript tEn "" gemBad .fail).factCheck.claims ≠ [] := by
  decide

/-- C3 (amended): provided the Extractor's parsed result itself satisfies the
implication (non-financial means empty claims and sources, which the prompt
requests but the code never enforces), every pipeline result that is
non-financial has empty claims and sources. -/
theorem C3_financial_empty_amended (t : Transcript) (add : String)
    (gem : GeminiOutcome) (rag : RagOutcome)
    (hg : ∀ g, gem = GeminiOutcome.ok g → g.isFinancial = false →
      g.factCheck.claims = [] ∧ g.factCheck.sources = []) :
    (normalizeTranscript t add gem rag).isFinancial = false →
    (normalizeTranscript t add gem rag).factCheck.claims = [] ∧
    (normalizeTranscript t add gem rag).factCheck.sources = [] := by
  unfold normalizeTranscript
  split
  · intro _; exact ⟨rfl, rfl⟩
  · split
    · intro _; exact ⟨rfl, rfl⟩
    · cases gem with
      | fail => intro _; exact ⟨rfl, rfl⟩
      | ok parsed =>
        simp only [runGeminiFactCheck]
        unfold mergeResults
        split
        · intro hfin
          exact absurd hfin (by simp)
        · intro hfin
          exact hg parsed rfl hfin

/-- Witness for C3 (amended) at a conforming Extractor result. -/
theorem C3_financial_empty_amended_witness :
    (normalizeTranscript tEn "" gemGood .fail).factCheck.claims = [] ∧
    (normalizeTranscript tEn "" gemGood .fail).factCheck.sources = [] :=
  C3_financial_empty_amended tEn "" gemGood .fail
    (fun g hgeq => by cases hgeq; intro _; exact ⟨rfl, rfl⟩) (by decide)

/-- C4 counterexample: an `OUT OF CONTEXT` answer accompanied by a non-empty
passages array yields a non-empty `sources` list, because the source maps
passages into `sources` without the sentinel guard. -/
theorem C4_counterexample :
    (runRAGFactCheck "some text" (.ok "OUT OF CONTEXT" [ragPassage])).factCheck.sources ≠ [] := by
  decide

/-- C4 (amended): for every retrieval response whose answer is the
`OUT OF CONTEXT` sentinel, the Fact Source result has empty claims,
`isFinancial = false`, `isMisleading = false`, transcript equal to the input
combined text, and `sources` equal to the passages mapped to Source records
(hence empty exactly when the passages array is empty). -/
theorem C4_out_of_context (ct : String) (ps : List Passage) :
    runRAGFactCheck ct (.ok "OUT OF CONTEXT" ps) =
      { normalizedTranscript := ct
        isFinancial := false
        isMisleading := false
        factCheck :=
          { claims := []
            sources := ps.map (fun p => { title := p.title, url := p.url, snippet := p.snippet }) } } := by
  simp [runRAGFactCheck]

/-- C5 counterexample: with an empty English array next to a populated Hindi
sequence, the code selects the (empty) English branch — empty arrays are
truthy in JavaScript — so the combined text is empty, while the claim's
"exists and is non-empty" reading demands the Hindi fallback text. -/
theorem C5_counterexample :
    combinedTextOf tCex5 = "" ∧ claimCombinedText tCex5 = "hello" := by
  decide

/-- C5 (amended): if an English sequence exists as an array — even an empty
one — the combined text uses only the English segments; otherwise it is the
concatenation over the preference order `en, hi, ta, bn, mr` of every present
sequence; in both cases joined by single spaces, truncated to 5000 characters,
and trimmed. -/
theorem C5_aggregator_amended (t : Transcript) :
    combinedTextOf t = specCombinedText t := by
  unfold combinedTextOf specCombinedText
  rw [selectSegments_eq_spec]

/-- C9: on the gold/2015 keyword match the context hint does equal the fixed
static fact string, but the hint never reaches the model: the prompt does not
contain it (the template ignores the context parameter entirely, so the prompt
is the same for every context value). -/
theorem C9_context_dropped_from_prompt :
    contextFor "10gm gold was 3000 Rs in 2015" "" = staticFactGold2015 ∧
    jsIncludes
      (geminiPrompt "10gm gold was 3000 Rs in 2015" (contextFor "10gm gold was 3000 Rs in 2015" ""))
      staticFactGold2015 = false ∧
    ∀ c1 c2 : String,
      geminiPrompt "10gm gold was 3000 Rs in 2015" c1 =
        geminiPrompt "10gm gold was 3000 Rs in 2015" c2 := by
  refine ⟨by decide, by decide, fun c1 c2 => rfl⟩

/-- An exact-length capture yields exactly `n` characters, all in the class. -/
theorem takeExact_post : ∀ (n : Nat) (l r : List Char),
    takeExact n l = some r → r.length = n ∧ r.all isIdChar = true := by
  intro n
  induction n with
  | zero =>
    intro l r h
    unfold takeExact at h
    cases h
    exact ⟨rfl, rfl⟩
  | succ n ih =>
    intro l r h
    cases l with
    | nil => exact absurd h (by simp [takeExact])
    | cons c cs =>
      unfold takeExact at h
      by_cases hc : isIdChar c = true
      · rw [if_pos hc] at h
        cases hr : takeExact n cs with
        | none => rw [hr] at h; simp at h
        | some r2 =>
          rw [hr] at h
          simp only [Option.map_some'] at h
          cases h
          obtain ⟨h1, h2⟩ := ih cs r2 hr
          refine ⟨by simp [h1], ?_⟩
          simp [List.all_cons, hc, h2]
      · rw [if_neg hc] at h
        simp at h

/-- The 11-character capture yields an id of length 11 in the class. -/
theorem capture11_post (r : List Char) (id : String) (h : capture11 r = some id) :
    id.length = 11 ∧ id.data.all isIdChar = true := by
  unfold capture11 at h
  cases ht : takeExact 11 r with
  | none => rw [ht] at h; simp at h
  | some l =>
    rw [ht] at h
    simp only [Option.map_some'] at h
    cases h
    exact takeExact_post 11 r l ht

/-- Every successful inner-alternative attempt ends in the 11-char capture. -/
theorem tryAltsWith_post : ∀ (alts : List String) (rest : List Char) (id : String),
    tryAltsWith rest alts = some id → id.length = 11 ∧ id.data.all isIdChar = true := by
  intro alts
  induction alts with
  | nil => intro rest id h; simp [tryAltsWith] at h
  | cons alt alts ih =>
    intro rest id h
    unfold tryAltsWith at h
    cases hm : matchLit alt.data rest with
    | none => simp only [hm] at h; exact ih rest id h
    | some r =>
      simp only [hm] at h
      cases hc : capture11 r with
      | none => simp only [hc] at h; exact ih rest id h
      | some id2 =>
        simp only [hc, Option.some.injEq] at h
        subst h
        exact capture11_post r id2 hc

/-- Every successful YouTube pattern attempt yields an 11-char class id. -/
theorem ytMatchAt_post (cs : List Char) (id : String) (h : ytMatchAt cs = some id) :
    id.length = 11 ∧ id.data.all isIdChar = true := by
  unfold ytMatchAt at h
  cases h1 : (matchLit "youtube.com/".data cs).bind (fun rest => tryAltsWith rest ytInnerAlts) with
  | some id1 =>
    simp only [h1, Option.some.injEq] at h
    subst h
    obtain ⟨rest, -, hr⟩ := Option.bind_eq_some.mp h1
    exact tryAltsWith_post ytInnerAlts rest id1 hr
  | none =>
    simp only [h1] at h
    cases h2 : (matchLit "youtu.be/".data cs).bind capture11 with
    | some id2 =>
      simp only [h2, Option.some.injEq] at h
      subst h
      obtain ⟨rest, -, hr⟩ := Option.bind_eq_some.mp h2
      exact capture11_post rest id2 hr
    | none =>
      simp only [h2] at h
      obtain ⟨rest, -, hr⟩ := Option.bind_eq_some.mp h
      exact tryAltsWith_post ytInnerAlts rest id hr

/-- Every successful Instagram capture is non-empty and in the class. -/
theorem captureIdPlus_post (r : List Char) (id : String) (h : captureIdPlus r = some id) :
    0 < id.length ∧ id.data.all isIdChar = true := by
  unfold captureIdPlus at h
  by_cases he : (r.takeWhile isIdChar).isEmpty = true
  · rw [if_pos he] at h; simp at h
  · rw [if_neg he] at h
    cases h
    constructor
    · show 0 < (r.takeWhile isIdChar).length
      refine List.length_pos.mpr fun hnil => he ?_
      rw [hnil]
      rfl
    · show (r.takeWhile isIdChar).all isIdChar = true
      exact List.all_takeWhile

/-- Every successful Instagram pattern attempt yields a non-empty class id. -/
theorem instaMatchAt_post (cs : List Char) (id : String) (h : instaMatchAt cs = some id) :
    0 < id.length ∧ id.data.all isIdChar = true := by
  unfold instaMatchAt at h
  cases h1 : matchLit "instagram.com/".data cs with
  | none => simp [h1] at h
  | some rest =>
    simp only [h1] at h
    cases h2 : matchLit "p/".data rest with
    | some r =>
      simp only [h2] at h
      exact captureIdPlus_post r id h
    | none =>
      simp only [h2] at h
      cases h3 : matchLit "reel/".data rest with
      | some r =>
        simp only [h3] at h
        exact captureIdPlus_post r id h
      | none => simp [h3] at h

/-- A postcondition of every per-position attempt carries over to the
first-match scan. -/
theorem scanMatch_post (f : List Char → Option String) (P : String → Prop)
    (hf : ∀ cs id, f cs = some id → P id) :
    ∀ (l : List Char) (id : String), scanMatch f l = some id → P id := by
  intro l
  induction l with
  | nil => intro id h; exact hf [] id h
  | cons c cs ih =>
    intro id h
    unfold scanMatch at h
    cases hfc : f (c :: cs) with
    | some r =>
      simp only [hfc, Option.some.injEq] at h
      subst h
      exact hf _ _ hfc
    | none =>
      simp only [hfc] at h
      exact ih id h

/-- C10: both video-id extractors are total functions into strings. When URL
parsing fails (the `new URL` oracle is false) or the pattern does not match,
they return the empty string; when the pattern matches, they return exactly
the captured id — eleven class characters for YouTube, at least one for
Instagram. -/
theorem C10_extractors_total (s : String) :
    extractYouTubeId false s = "" ∧
    extractInstagramId false s = "" ∧
    (scanMatch ytMatchAt (cleanUrl s).data = none → extractYouTubeId true s = "") ∧
    (scanMatch instaMatchAt (cleanUrl s).data = none → extractInstagramId true s = "") ∧
    (∀ id, scanMatch ytMatchAt (cleanUrl s).data = some id →
      extractYouTubeId true s = id ∧ id.length = 11 ∧ id.data.all isIdChar = true) ∧
    (∀ id, scanMatch instaMatchAt (cleanUrl s).data = some id →
      extractInstagramId true s = id ∧ 0 < id.length ∧ id.data.all isIdChar = true) := by
  refine ⟨rfl, rfl, ?_, ?_, ?_, ?_⟩
  · intro h; simp [extractYouTubeId, h]
  · intro h; simp [extractInstagramId, h]
  · intro id h
    refine ⟨by simp [extractYouTubeId, h], ?_⟩
    exact scanMatch_post ytMatchAt
      (fun i => i.length = 11 ∧ i.data.all isIdChar = true) ytMatchAt_post _ id h
  · intro id h
    refine ⟨by simp [extractInstagramId, h], ?_⟩
    exact scanMatch_post instaMatchAt
      (fun i => 0 < i.length ∧ i.data.all isIdChar = true) instaMatchAt_post _ id h

/-- Witness for C10 at concrete URLs of both platforms, plus a parse-failure
input. -/
theorem C10_extractors_total_witness :
    extractYouTubeId true "https://www.youtube.com/watch?v=dQw4w9WgXcQ" = "dQw4w9WgXcQ" ∧
    extractInstagramId true "instagram.com/reel/AbC123_-x" = "AbC123_-x" ∧
    extractYouTubeId true "https://example.com/other" = "" ∧
    extractYouTubeId false "https://www.youtube.com/watch?v=dQw4w9WgXcQ" = "" := by
  refine ⟨((C10_extractors_total "https://www.youtube.com/watch?v=dQw4w9WgXcQ").2.2.2.2.1
      "dQw4w9WgXcQ" (by decide)).1,
    ((C10_extractors_total "instagram.com/reel/AbC123_-x").2.2.2.2.2
      "AbC123_-x" (by decide)).1,
    (C10_extractors_total "https://example.com/other").2.2.1 (by decide),
    (C10_extractors_total "https://www.youtube.com/watch?v=dQw4w9WgXcQ").1⟩

end FactFinit
